import Mathlib

/-!
Verification of the conversation-orchestration engine of a property-search
chat bot (routing, slot extraction and merge, decision engine, hybrid
search, result pagination, capability gate), shallowly embedded from the
Python sources under `app/`.

Conventions used throughout:
* Python `Optional[T]` fields are `Option T`; Python truthiness of a value
  is modelled explicitly (`""`, `0`, `False`, `None` are falsy).
* A pydantic partial update produced by `model_validate_json` followed by
  `model_dump(exclude_unset=True)` distinguishes "field absent from the
  JSON" from "field present with value null"; an update field is therefore
  `Option (Option T)`: `none` = unset, `some none` = set to null,
  `some (some v)` = set to `v`.
* External collaborators (database rows, geocoding, the language model)
  are parameters of the embedded functions.
-/

namespace PropBot

/-! ## Python-style string helpers -/

/-- Apostrophe character, used inside keyword strings. -/
def apos : String := String.singleton (Char.ofNat 39)

/-- `needle.isPrefixOf`-based containment test on character lists. -/
def listContains (needle : List Char) : List Char → Bool
  | [] => needle.isEmpty
  | c :: cs => needle.isPrefixOf (c :: cs) || listContains needle cs

/-- Python `needle in hay` on strings. -/
def strContains (hay needle : String) : Bool :=
  listContains needle.toList hay.toList

/-- Python `any(k in hay for k in kws)`. -/
def anyKeyword (kws : List String) (hay : String) : Bool :=
  kws.any (fun k => strContains hay k)

/-- Python `str.strip()` (whitespace at both ends). -/
def pyStrip (s : String) : String :=
  String.mk (((s.toList.dropWhile Char.isWhitespace).reverse.dropWhile
    Char.isWhitespace).reverse)

/-- Python `str.lower()`, character by character (structural, so it
evaluates by reduction). -/
def pyLower (s : String) : String :=
  String.mk (s.toList.map Char.toLower)

/-- Truthiness of an optional Python string (`None` and `""` are falsy). -/
def strTruthy : Option String → Bool
  | none => false
  | some s => s ≠ ""

/-- Truthiness of an optional Python int (`None` and `0` are falsy). -/
def intTruthy : Option Int → Bool
  | none => false
  | some v => v ≠ 0

/-- Truthiness of an optional Python bool (only `True` is truthy). -/
def boolTruthy : Option Bool → Bool
  | none => false
  | some b => b

/-- Case-insensitive SQL `ILIKE 'literal'` (no wildcards: equality). -/
def ilikeEq (col pat : String) : Bool := pyLower col = pyLower pat

/-- Case-insensitive SQL `ILIKE '%literal%'` (substring match). -/
def ilikeSub (col pat : String) : Bool := strContains (pyLower col) (pyLower pat)

/-! ## Dates, mirroring `datetime.strptime(s, "%Y-%m-%d")` -/

/-- A calendar date. -/
structure SDate where
  year : Nat
  month : Nat
  day : Nat
deriving DecidableEq, Repr

/-- Gregorian leap-year rule used by `datetime.date`. -/
def isLeap (y : Nat) : Bool := y % 4 = 0 && (y % 100 ≠ 0 || y % 400 = 0)

/-- Days in a month, as validated by `datetime.date`. -/
def daysInMonth (y m : Nat) : Nat :=
  if m = 2 then (if isLeap y then 29 else 28)
  else if m = 4 || m = 6 || m = 9 || m = 11 then 30
  else 31

/-- Split a character list on a separator character (Python `str.split(sep)`
semantics: `"a-b".split("-") == ["a","b"]`, `"-x".split("-") == ["","x"]`). -/
def splitOnChar (sep : Char) : List Char → List (List Char)
  | [] => [[]]
  | c :: cs =>
    let r := splitOnChar sep cs
    if c = sep then [] :: r
    else
      match r with
      | [] => [[c]]
      | h :: t => (c :: h) :: t

/-- Decimal digits to a natural number. -/
def digitsToNat (cs : List Char) : Nat :=
  cs.foldl (fun a c => a * 10 + (c.toNat - 48)) 0

/--
`datetime.strptime(s, "%Y-%m-%d").date()`: `%Y` is exactly four digits,
`%m` and `%d` are one or two digits, the whole string must be consumed,
and `datetime` validates month/day ranges (year 0 is invalid).
Returns `none` where Python raises `ValueError`.
-/
def parseISODate (s : String) : Option SDate :=
  match splitOnChar (Char.ofNat 45) s.toList with
  | [ys, ms, ds] =>
    if ys.length = 4 && ys.all Char.isDigit &&
       (ms.length = 1 || ms.length = 2) && ms.all Char.isDigit &&
       (ds.length = 1 || ds.length = 2) && ds.all Char.isDigit then
      let y := digitsToNat ys
      let m := digitsToNat ms
      let d := digitsToNat ds
      if 1 ≤ y && 1 ≤ m && m ≤ 12 && 1 ≤ d && d ≤ daysInMonth y m then
        some ⟨y, m, d⟩
      else none
    else none
  | _ => none

/-- Strict lexicographic order on dates (`target_date < today`). -/
def dateLt (a b : SDate) : Bool :=
  a.year < b.year ||
  (a.year = b.year && (a.month < b.month ||
    (a.month = b.month && a.day < b.day)))

/-- Zero-padded two-digit rendering (`%d`). -/
def pad2 (n : Nat) : String :=
  if n < 10 then "0" ++ toString n else toString n

/-- `%b`: abbreviated English month name. -/
def monthAbbr (m : Nat) : String :=
  match m with
  | 1 => "Jan" | 2 => "Feb" | 3 => "Mar" | 4 => "Apr"
  | 5 => "May" | 6 => "Jun" | 7 => "Jul" | 8 => "Aug"
  | 9 => "Sep" | 10 => "Oct" | 11 => "Nov" | _ => "Dec"

/-- `target_date.strftime("%d %b %Y")`. -/
def fmtDMY (d : SDate) : String :=
  pad2 d.day ++ " " ++ monthAbbr d.month ++ " " ++ toString d.year

/-! ## The Filter Model (`PropertySearchFilters`) -/

/--
`app/schemas/property_search.py::PropertySearchFilters` — every field is
`Optional` with default `None`.
-/
structure Filters where
  location_query : Option String := none
  budget_max : Option Int := none
  budget_min : Option Int := none
  move_in_date : Option String := none
  tenant_name : Option String := none
  tenant_gender : Option String := none
  tenant_nationality : Option String := none
  tenant_phone : Option String := none
  tenant_profession : Option String := none
  tenant_age_group : Option String := none
  tenant_pass_type : Option String := none
  tenant_lease_months : Option Int := none
  room_type : Option String := none
  needs_ensuite : Option Bool := none
  environment : Option String := none
  bedrooms : Option Int := none
  bathrooms : Option Int := none
  property_type : Option String := none
  furnishing_status : Option String := none
  min_lease_months : Option Int := none
  needs_cooking : Option Bool := none
  has_pets : Option Bool := none
  needs_gym : Option Bool := none
  needs_pool : Option Bool := none
  needs_visitor_allowance : Option Bool := none
  needs_wifi : Option Bool := none
  needs_aircon : Option Bool := none
  needs_washer_dryer : Option Bool := none
deriving DecidableEq, Repr

/--
A partial update as produced by `PropertySearchFilters.model_validate_json`
on the model output and read back with `model_dump(exclude_unset=True)`:
each field is unset (`none`), set to null (`some none`), or set to a value
(`some (some v)`).
-/
structure FilterUpdate where
  location_query : Option (Option String) := none
  budget_max : Option (Option Int) := none
  budget_min : Option (Option Int) := none
  move_in_date : Option (Option String) := none
  tenant_name : Option (Option String) := none
  tenant_gender : Option (Option String) := none
  tenant_nationality : Option (Option String) := none
  tenant_phone : Option (Option String) := none
  tenant_profession : Option (Option String) := none
  tenant_age_group : Option (Option String) := none
  tenant_pass_type : Option (Option String) := none
  tenant_lease_months : Option (Option Int) := none
  room_type : Option (Option String) := none
  needs_ensuite : Option (Option Bool) := none
  environment : Option (Option String) := none
  bedrooms : Option (Option Int) := none
  bathrooms : Option (Option Int) := none
  property_type : Option (Option String) := none
  furnishing_status : Option (Option String) := none
  min_lease_months : Option (Option Int) := none
  needs_cooking : Option (Option Bool) := none
  has_pets : Option (Option Bool) := none
  needs_gym : Option (Option Bool) := none
  needs_pool : Option (Option Bool) := none
  needs_visitor_allowance : Option (Option Bool) := none
  needs_wifi : Option (Option Bool) := none
  needs_aircon : Option (Option Bool) := none
  needs_washer_dryer : Option (Option Bool) := none
deriving DecidableEq, Repr

/-- One field of `model_copy(update=d)`: a key present in `d` (even with
value `None`) replaces the current value; an absent key leaves it. -/
def mergeField (upd : Option (Option α)) (cur : Option α) : Option α :=
  upd.getD cur

/--
`current_filters.model_copy(update=updated_data.model_dump(exclude_unset=True))`
in `extractor_node`, field by field.
-/
def mergeFilters (cur : Filters) (u : FilterUpdate) : Filters where
  location_query := mergeField u.location_query cur.location_query
  budget_max := mergeField u.budget_max cur.budget_max
  budget_min := mergeField u.budget_min cur.budget_min
  move_in_date := mergeField u.move_in_date cur.move_in_date
  tenant_name := mergeField u.tenant_name cur.tenant_name
  tenant_gender := mergeField u.tenant_gender cur.tenant_gender
  tenant_nationality := mergeField u.tenant_nationality cur.tenant_nationality
  tenant_phone := mergeField u.tenant_phone cur.tenant_phone
  tenant_profession := mergeField u.tenant_profession cur.tenant_profession
  tenant_age_group := mergeField u.tenant_age_group cur.tenant_age_group
  tenant_pass_type := mergeField u.tenant_pass_type cur.tenant_pass_type
  tenant_lease_months := mergeField u.tenant_lease_months cur.tenant_lease_months
  room_type := mergeField u.room_type cur.room_type
  needs_ensuite := mergeField u.needs_ensuite cur.needs_ensuite
  environment := mergeField u.environment cur.environment
  bedrooms := mergeField u.bedrooms cur.bedrooms
  bathrooms := mergeField u.bathrooms cur.bathrooms
  property_type := mergeField u.property_type cur.property_type
  furnishing_status := mergeField u.furnishing_status cur.furnishing_status
  min_lease_months := mergeField u.min_lease_months cur.min_lease_months
  needs_cooking := mergeField u.needs_cooking cur.needs_cooking
  has_pets := mergeField u.has_pets cur.has_pets
  needs_gym := mergeField u.needs_gym cur.needs_gym
  needs_pool := mergeField u.needs_pool cur.needs_pool
  needs_visitor_allowance := mergeField u.needs_visitor_allowance cur.needs_visitor_allowance
  needs_wifi := mergeField u.needs_wifi cur.needs_wifi
  needs_aircon := mergeField u.needs_aircon cur.needs_aircon
  needs_washer_dryer := mergeField u.needs_washer_dryer cur.needs_washer_dryer

/--
The residential-mode strip in `extractor_node`:
`updated_data.model_copy(update={nine coliving-only fields: None})`.
`model_copy(update=...)` adds the updated keys to the set of set fields,
so after `model_dump(exclude_unset=True)` these nine fields are present
with value null.
-/
def residentialStrip (u : FilterUpdate) : FilterUpdate :=
  { u with
    tenant_gender := some none
    environment := some none
    room_type := some none
    needs_ensuite := some none
    needs_cooking := some none
    needs_visitor_allowance := some none
    needs_wifi := some none
    tenant_profession := some none
    tenant_age_group := some none }

/-- The merged filters before validation: strip in residential mode, then
apply the pydantic copy-update. -/
def mergedOf (isRes : Bool) (cur : Filters) (u : FilterUpdate) : Filters :=
  mergeFilters cur (if isRes then residentialStrip u else u)

/-- The validation message attached when the move-in date is in the past. -/
def pastDateMsg (d : SDate) : String :=
  "The date " ++ fmtDMY d ++ " has passed. Please provide a future move-in date."

/-- The validation message for a too-short residential lease. -/
def shortLeaseMsg : String :=
  "The minimum lease for residential properties is 12 months. " ++
  "Please confirm you" ++ apos ++ "re looking for at least a 12-month lease."

/-- Python `new_filters.min_lease_months and new_filters.min_lease_months < 12`. -/
def leaseBad : Option Int → Bool
  | none => false
  | some v => v ≠ 0 && v < 12

/--
The pure tail of `extractor_node` (property-search mode): merge the
extracted update into the current filters, then apply the move-in-date
validation (only dates `strptime` can parse in `%Y-%m-%d` format are
checked; a `ValueError` is swallowed and the string kept), then the
residential minimum-lease validation (which overwrites the validation
message). Returns the new filters and `validation_error`.
-/
def extractorApply (isRes : Bool) (today : SDate) (cur : Filters)
    (u : FilterUpdate) : Filters × Option String :=
  let nf := mergedOf isRes cur u
  let step1 : Filters × Option String :=
    match nf.move_in_date with
    | none => (nf, none)
    | some s =>
      match parseISODate s with
      | none => (nf, none)
      | some d =>
        if dateLt d today then
          ({ nf with move_in_date := none }, some (pastDateMsg d))
        else (nf, none)
  if isRes && leaseBad step1.1.min_lease_months then
    ({ step1.1 with min_lease_months := none }, some shortLeaseMsg)
  else step1


/-! ## Listings and the coliving SQL query (`query_builder.py`) -/

/-- A row of the `coliving_property` table (the columns the query and the
post-processing read). `none` models SQL `NULL`. -/
structure Listing where
  property_id : Option String := none
  listing_status : Option String := none
  current_listing : Option String := none
  monthly_rent : Int := 0
  property_name : Option String := none
  property_address : Option String := none
  nearest_mrt : Option String := none
  district : Option String := none
  environment : Option String := none
  gender_preference : Option String := none
  nationality_preferences : Option String := none
  room_type : Option String := none
  cooking_allowed : Option Bool := none
  gas_stove : Option Bool := none
  gym : Option Bool := none
  swimming_pool : Option Bool := none
  wifi : Option String := none
  pet_policy : Option String := none
  visitor_policy : Option String := none
  available_from : Option String := none
deriving DecidableEq, Repr

/-- `col ILIKE 'pat'` on a nullable column (`NULL` fails the match). -/
def colIlikeEq (c : Option String) (pat : String) : Bool :=
  match c with
  | some v => ilikeEq v pat
  | none => false

/-- `col ILIKE '%pat%'` on a nullable column (`NULL` fails the match). -/
def colIlikeSub (c : Option String) (pat : String) : Bool :=
  match c with
  | some v => ilikeSub v pat
  | none => false

/-- `(col NOT ILIKE 'pat' OR col IS NULL)`. -/
def colNotIlikeEqOrNull (c : Option String) (pat : String) : Bool :=
  match c with
  | some v => !(ilikeEq v pat)
  | none => true

/-- `(col ILIKE o1 OR col ILIKE o2 OR ... OR col IS NULL)`. -/
def colIlikeAnyOrNull (c : Option String) (opts : List String) : Bool :=
  match c with
  | some v => opts.any (fun o => ilikeEq v o)
  | none => true

/-- The text-search disjunction of `_build_coliving_query`:
`(property_name ILIKE %t% OR property_address ILIKE %t% OR nearest_mrt
ILIKE %t% OR district ILIKE %t%)`. -/
def textSearchClause (t : String) (p : Listing) : Bool :=
  colIlikeSub p.property_name t || colIlikeSub p.property_address t ||
  colIlikeSub p.nearest_mrt t || colIlikeSub p.district t

/-- The environment filter of `_build_coliving_query` (note: `"female"` is
checked before `"male"`, since `"female"` contains `"male"`). -/
def envClause (f : Filters) (p : Listing) : Bool :=
  match f.environment with
  | none => true
  | some e =>
    if e = "" then true
    else
      let term := pyLower e
      if strContains term "female" || strContains term "ladies" then
        colIlikeEq p.environment "female"
      else if strContains term "male" || strContains term "men" then
        colIlikeEq p.environment "male"
      else if strContains term "mixed" then
        colIlikeEq p.environment "mixed"
      else true

/-- The gender-compatibility filter of `_build_coliving_query`. For
`couple` the SQL has no `IS NULL` escape on `environment`, so a `NULL`
environment is excluded (SQL three-valued logic). -/
def genderClause (f : Filters) (p : Listing) : Bool :=
  match f.tenant_gender with
  | none => true
  | some g =>
    if g = "" then true
    else
      let term := pyLower g
      if term = "male" then
        colIlikeAnyOrNull p.gender_preference ["male", "any", "mixed"] &&
        colNotIlikeEqOrNull p.environment "female"
      else if term = "female" then
        colIlikeAnyOrNull p.gender_preference ["female", "any", "mixed"] &&
        colNotIlikeEqOrNull p.environment "male"
      else if term = "couple" then
        colIlikeAnyOrNull p.gender_preference ["any", "couple", "mixed"] &&
        (match p.environment with
         | some v => !(ilikeEq v "male") && !(ilikeEq v "female")
         | none => false)
      else true

/-- The nationality filter of `_build_coliving_query`. -/
def nationalityClause (f : Filters) (p : Listing) : Bool :=
  match f.tenant_nationality with
  | none => true
  | some n =>
    if n = "" then true
    else
      match p.nationality_preferences with
      | some v => ilikeSub v n || ilikeEq v "any" || ilikeEq v "all"
      | none => true

/-- The room-type / ensuite filter of `_build_coliving_query` (`is False` /
`is True` identity checks in Python, not truthiness). -/
def roomTypeClause (f : Filters) (p : Listing) : Bool :=
  if f.room_type = some "Common" || f.needs_ensuite = some false then
    colIlikeSub p.room_type "without attached"
  else if f.room_type = some "Master" || f.needs_ensuite = some true then
    colIlikeSub p.room_type "with attached"
  else true

/-- Amenity and policy filters of `_build_coliving_query`. -/
def amenityClause (f : Filters) (p : Listing) : Bool :=
  (if boolTruthy f.needs_cooking then
     p.cooking_allowed = some true || p.gas_stove = some true
   else true) &&
  (if boolTruthy f.needs_gym then p.gym = some true else true) &&
  (if boolTruthy f.needs_pool then p.swimming_pool = some true else true) &&
  (if boolTruthy f.needs_wifi then
     (match p.wifi with
      | some v => ilikeEq v "true" || ilikeEq v "available" || ilikeEq v "free"
      | none => false)
   else true) &&
  (if boolTruthy f.has_pets then
     (match p.pet_policy with
      | some v => !(ilikeSub v "not allowed") && !(ilikeSub v "no pets")
      | none => true)
   else true) &&
  (if boolTruthy f.needs_visitor_allowance then
     (match p.visitor_policy with
      | some v => !(ilikeSub v "not allowed")
      | none => true)
   else true)

/-- Availability filter: `(available_from <= :move_in_date OR IS NULL)`. -/
def availabilityClause (f : Filters) (p : Listing) : Bool :=
  if strTruthy f.move_in_date then
    (match p.available_from with
     | some a => decide (a ≤ f.move_in_date.getD "")
     | none => true)
  else true

/-- The whole `WHERE` clause of `_build_coliving_query` for a non-geo
query (`lat`/`lng` absent, optional text-search term). -/
def rowPredColiving (f : Filters) (tt : Option String) (p : Listing) : Bool :=
  p.listing_status = some "active" &&
  p.current_listing = some "Available to rent" &&
  (match tt with
   | none => true
   | some t => textSearchClause t p) &&
  (if intTruthy f.budget_max then decide (p.monthly_rent ≤ f.budget_max.getD 0) else true) &&
  (if intTruthy f.budget_min then decide (f.budget_min.getD 0 ≤ p.monthly_rent) else true) &&
  envClause f p && genderClause f p && nationalityClause f p &&
  roomTypeClause f p && amenityClause f p && availabilityClause f p

/-- `ORDER BY p.monthly_rent ASC`. -/
def rentLE (a b : Listing) : Prop := a.monthly_rent ≤ b.monthly_rent

instance : DecidableRel rentLE :=
  fun a b => inferInstanceAs (Decidable (a.monthly_rent ≤ b.monthly_rent))

instance : IsTotal Listing rentLE := ⟨fun a b => Int.le_total a.monthly_rent b.monthly_rent⟩

instance : IsTrans Listing rentLE := ⟨fun _ _ _ h1 h2 => le_trans h1 h2⟩

/--
Execution of the text/flexible variant of `_build_coliving_query` against
the listing table: filter by the `WHERE` clause, `ORDER BY monthly_rent
ASC`, `LIMIT 10` (the builder emits `LIMIT 10`; the
`replace("LIMIT 5", "LIMIT 10")` in `search_node` is a no-op).
-/
def runColivingQuery (table : List Listing) (f : Filters) (tt : Option String) :
    List Listing :=
  (List.insertionSort rentLE (table.filter (rowPredColiving f tt))).take 10

/-! ## Deduplication and the search node (`search_tool.py`) -/

/-- `p.get('property_id')` under Python truthiness: a missing or empty
identifier counts as "no identifier". -/
def truthyId (p : Listing) : Option String :=
  match p.property_id with
  | none => none
  | some s => if s = "" then none else some s

/-- The dedup loop of `search_node`, carrying the `seen_ids` set. -/
def dedupAux (seen : List String) : List Listing → List Listing
  | [] => []
  | p :: rest =>
    match truthyId p with
    | some i =>
      if i ∈ seen then dedupAux seen rest
      else p :: dedupAux (i :: seen) rest
    | none => p :: dedupAux seen rest

/-- Deduplicate by `property_id`, keeping first occurrences and records
without an identifier. -/
def dedupProps (l : List Listing) : List Listing := dedupAux [] l

/-- Number of records in `l` whose truthy identifier is `i`. -/
def idCount (i : String) : List Listing → Nat
  | [] => 0
  | p :: rest => (if truthyId p = some i then 1 else 0) + idCount i rest

/-- Flexible-location keyword list of `search_node`. -/
def searchFlexibleKeywords : List String :=
  ["anywhere", "no preference", "flexible", "any", "doesnt matter",
   "doesn" ++ apos ++ "t matter", "no prefernce", "anything is fine",
   "any location"]

/-- `is_flexible_location` in `search_node` (computed only when the
location string is truthy). -/
def isFlexibleLocation (loc : Option String) : Bool :=
  if strTruthy loc then anyKeyword searchFlexibleKeywords (pyLower (loc.getD ""))
  else false

/-- Replace every occurrence of `pat` (left to right, non-overlapping) by
`rep`, with explicit fuel for structural recursion; the fuel is always at
least the length of the remaining list, so it is never exhausted. -/
def replAllAux (pat rep : List Char) : Nat → List Char → List Char
  | _, [] => []
  | 0, l => l
  | fuel + 1, c :: cs =>
    if pat.isPrefixOf (c :: cs) then
      rep ++ replAllAux pat rep fuel (cs.drop (pat.length - 1))
    else c :: replAllAux pat rep fuel cs

/-- Python `s.replace(pat, rep)` (all occurrences). -/
def pyReplace (s pat rep : String) : String :=
  String.mk (replAllAux pat.toList rep.toList s.toList.length s.toList)

/-- The location-cleaning step of `search_node`: lower-case, strip filler
words in the source order, then strip whitespace. -/
def cleanLoc (loc : String) : String :=
  let s0 := pyLower loc
  let s1 := pyReplace s0 "near" ""
  let s2 := pyReplace s1 "around" ""
  let s3 := pyReplace s2 "at" ""
  let s4 := pyReplace s3 "in" ""
  let s5 := pyReplace s4 "area" ""
  let s6 := pyReplace s5 "location" ""
  let s7 := pyReplace s6 "mrt" ""
  let s8 := pyReplace s7 "station" ""
  pyStrip s8

/-- The external collaborators of `search_node`: the listing table read by
the database, the geocoding service (`tool.get_coordinates`), and the rows
returned by the radius query (whose PostGIS distance predicate and
ordering are external). -/
structure SearchEnv where
  table : List Listing
  geocodeResult : Option (Int × Int)
  radiusRows : List Listing

/-- The partial state update returned by `search_node`, plus a ghost flag
recording whether the geocoding collaborator was invoked. -/
structure SearchOutcome where
  found_properties : List Listing
  shown_count : Nat
  next_step : String
  geocode_invoked : Bool
deriving Repr

/-- `filters.location_query if filters else None`. -/
def locationOf (fopt : Option Filters) : Option String :=
  match fopt with
  | none => none
  | some f => f.location_query

/--
`search_node` of `search_tool.py`: strategy 0 (flexible/empty location →
query all listings), strategy 1 (text search on the cleaned location if it
has meaningful length), strategy 2 (geocode fallback: radius query on
success, unrestricted query when geocoding fails), then deduplication;
returns `shown_count = 0` and routes to `display_results`.
-/
def search_node (env : SearchEnv) (filters : Option Filters) : SearchOutcome :=
  let fdict := filters.getD {}
  let location_str := locationOf filters
  let locTruthy := strTruthy location_str
  let is_flex := isFlexibleLocation location_str
  let props0 : List Listing :=
    if is_flex || !locTruthy then runColivingQuery env.table fdict none else []
  let props1 : List Listing :=
    if locTruthy && !is_flex then
      let clean := cleanLoc (location_str.getD "")
      if clean.length > 2 then runColivingQuery env.table fdict (some clean)
      else props0
    else props0
  let invokeGeo := props1.isEmpty && locTruthy && !is_flex
  let props2 : List Listing :=
    if invokeGeo then
      match env.geocodeResult with
      | some _ => env.radiusRows
      | none => runColivingQuery env.table fdict none
    else props1
  { found_properties := dedupProps props2
    shown_count := 0
    next_step := "display_results"
    geocode_invoked := invokeGeo }

/-! ## Session state and the decision node (`decision.py`) -/

/-- The fields of `AgentState` read by the embedded nodes. Messages are
reduced to their text content. -/
structure AgentState where
  messages : List String := []
  filters : Option Filters := none
  target_table : Option String := none
  active_flow : Option String := none
  found_properties : Option (List Listing) := none
  shown_count : Option Nat := none
  inventory_check_status : Option String := none
  user_email : Option String := none

/-- `state["messages"][-1].content.lower()` (empty history gives `""`;
the nodes that index `messages[-1]` are only reached with a non-empty
history, which the router theorem makes explicit). -/
def lastMsgLower (s : AgentState) : String :=
  pyLower (s.messages.getLast?.getD "")

/-- `"residential" in (target_table or "")`. -/
def isResidentialTable (tt : Option String) : Bool :=
  strContains (tt.getD "") "residential"

/-- The affirmative-continuation keyword list of `decision_node`. -/
def positiveKeywords : List String :=
  ["yes", "show", "more", "next", "okay", "sure", "go ahead",
   "yup", "yeah", "yea", "please"]

/-- The flexible-location keyword list of `decision_node`. -/
def decisionFlexibleKeywords : List String :=
  ["anywhere", "no preference", "flexible", "any",
   "doesnt matter", "doesn" ++ apos ++ "t matter", "no prefernce",
   "anything is fine"]

/-- The location check of `decision_node`: a truthy `location_query`
counts if it matches a flexible keyword or is non-blank after stripping. -/
def hasLocation (fopt : Option Filters) : Bool :=
  match fopt with
  | none => false
  | some f =>
    match f.location_query with
    | none => false
    | some lq =>
      if lq = "" then false
      else if anyKeyword decisionFlexibleKeywords (pyLower lq) then true
      else if pyStrip lq ≠ "" then true
      else false

/-- `filters and filters.budget_max` (int truthiness: `0` is falsy). -/
def budgetTruthy (fopt : Option Filters) : Bool :=
  match fopt with
  | none => false
  | some f => intTruthy f.budget_max

/-- `filters and filters.tenant_gender` (string truthiness). -/
def genderTruthy (fopt : Option Filters) : Bool :=
  match fopt with
  | none => false
  | some f => strTruthy f.tenant_gender

/--
`decision_node` of `decision.py`: pending inventory check, then
pagination, then the slot checks in priority order — location, budget,
gender (coliving only) — and finally `execute_search`.
-/
def decision_node (s : AgentState) : String :=
  if s.inventory_check_status = some "PENDING" then "check_inventory"
  else
    let props := s.found_properties.getD []
    let shown := s.shown_count.getD 0
    if !props.isEmpty && decide (shown < props.length) &&
        anyKeyword positiveKeywords (lastMsgLower s) then
      "display_results"
    else if !hasLocation s.filters then "ask_location"
    else if !budgetTruthy s.filters then "ask_budget"
    else if !isResidentialTable s.target_table && !genderTruthy s.filters then
      "ask_gender"
    else "execute_search"

/-! ## The result presenter (`display_results.py`) -/

/-- The partial state update returned by `display_results_node`: the batch
that is rendered into the message (card text elided), the new pagination
cursor when one is written, the remaining-count announced in the closing
line of the message (`some 0` corresponds to the "that is all the
matches" line), and the routing decision. -/
structure DisplayOutcome where
  rendered : List Listing
  shown_count : Option Nat
  remaining : Option Nat
  next_step : String
deriving Repr

/--
`display_results_node` of `display_results.py`: batches of 3. Case A — no
results at all; case B — cursor past the end; case C — render
`properties[shown_count : shown_count+3]`, advance the cursor by the batch
length, and announce how many remain.
-/
def display_results_node (s : AgentState) : DisplayOutcome :=
  let properties := s.found_properties.getD []
  let start_idx := s.shown_count.getD 0
  let batch := (properties.drop start_idx).take 3
  if properties.isEmpty then
    { rendered := [], shown_count := none, remaining := none, next_step := "complete" }
  else if batch.isEmpty then
    { rendered := [], shown_count := none, remaining := none, next_step := "complete" }
  else
    let new_count := start_idx + batch.length
    { rendered := batch
      shown_count := some new_count
      remaining := some (properties.length - new_count)
      next_step := "waiting_for_user" }

/-! ## Domain-switch reset (`clear_memory.py`) -/

/-- The partial state update returned by `clear_memory_node`. -/
structure ClearOutcome where
  filters : Option Filters
  found_properties : Option (List Listing)
  shown_count : Nat
  inventory_check_status : Option String
  validation_error : Option String
  next_step : String

/-- `if val:` — keep only truthy (non-empty) string values. -/
def keepTruthyStr (o : Option String) : Option String :=
  match o with
  | none => none
  | some s => if s = "" then none else some s

/--
`clear_memory_node` of `clear_memory.py`: wipe the filters while
preserving truthy demographic fields (a fresh `PropertySearchFilters` is
built only when at least one demographic survives, else `None`), clear
the results, and reset the pagination cursor to 0.
-/
def clear_memory_node (s : AgentState) : ClearOutcome :=
  let nf : Option Filters :=
    match s.filters with
    | none => none
    | some old =>
      let pn := keepTruthyStr old.tenant_nationality
      let pg := keepTruthyStr old.tenant_gender
      let pf := keepTruthyStr old.tenant_profession
      let pa := keepTruthyStr old.tenant_age_group
      let pt := keepTruthyStr old.tenant_pass_type
      let pp := keepTruthyStr old.tenant_phone
      if pn.isSome || pg.isSome || pf.isSome || pa.isSome || pt.isSome || pp.isSome then
        some { tenant_nationality := pn, tenant_gender := pg,
               tenant_profession := pf, tenant_age_group := pa,
               tenant_pass_type := pt, tenant_phone := pp }
      else none
  { filters := nf
    found_properties := none
    shown_count := 0
    inventory_check_status := none
    validation_error := none
    next_step := "CHECK_CAPABILITY" }

/-! ## The capability gate (`capability_check.py`) -/

/-- The fixed `service_map`: logical table name ↦ (capability column,
human-friendly label). -/
def serviceMap : List (String × String × String) :=
  [("coliving_property", "co_living_property", "Co-living Spaces"),
   ("rooms_for_rent", "rooms_for_rent", "Standard Rooms"),
   ("residential_properties_for_rent", "residential_property_rent", "Whole Unit Rentals"),
   ("residential_properties_for_resale", "residential_property_resale", "Residential Sales"),
   ("residential_properties_for_sale_by_developers", "residential_property_developer", "New Launch Residential"),
   ("commercial_properties_for_rent", "commercial_property_rent", "Commercial Rentals"),
   ("commercial_properties_for_resale", "commercial_property_resale", "Commercial Sales"),
   ("commercial_properties_for_sale_by_developers", "commercial_property_developer", "New Launch Commercial")]

/-- `service_map.get(target_table)`. -/
def lookupService (tt : String) : Option (String × String) :=
  match serviceMap.find? (fun e => e.1 = tt) with
  | some e => some e.2
  | none => none

/-- The agent capability row, as a map from column name to the stored
boolean (`none` for SQL `NULL`). -/
def AgentRow : Type := String → Option Bool

/-- The result of the capability gate: either an approval, or a rejection
carrying the human labels of the services the agent is enabled for
(message text elided). -/
structure CapOutcome where
  next_step : String
  alternatives : List String := []

/--
`capability_check_node` of `capability_check.py`: an unknown
`target_table` is approved before the database is consulted; a missing
agent row (common chatbot mode) is approved; otherwise the specific
capability column decides, and a rejection collects the enabled services
as alternatives.
-/
def capability_check_node (agentRow : Option AgentRow) (target_table : String) :
    CapOutcome :=
  match lookupService target_table with
  | none => { next_step := "PROPERTY_SEARCH_APPROVED" }
  | some (col, _) =>
    match agentRow with
    | none => { next_step := "PROPERTY_SEARCH_APPROVED" }
    | some row =>
      if row col = some true then { next_step := "PROPERTY_SEARCH_APPROVED" }
      else
        { next_step := "end"
          alternatives := (serviceMap.filter
            (fun e => row e.2.1 = some true)).map (fun e => e.2.2) }

/-! ## The intent router (`router.py`) -/

/-- Pagination keywords of the router. -/
def paginationKeywords : List String :=
  ["yes", "yeah", "yep", "sure", "show more", "next", "continue"]

/-- Budget-update override keywords. -/
def budgetUpdateKeywords : List String :=
  ["above", "under", "below", "between", "min", "max", "$", "budget"]

/-- Location-update override keywords. -/
def locationUpdateKeywords : List String :=
  ["near", "mrt", "station", "area", "location", "district"]

/-- Explicit domain-switch keywords. -/
def explicitSwitchKeywords : List String :=
  ["buy", "rent", "commercial", "residential", "office", "shop", "store"]

/-- Regex word character (`\w`). -/
def isWordChar (c : Char) : Bool := c.isAlphanum || c = Char.ofNat 95

/-- After a run of digits, `\b` requires end of input or a non-word
character. -/
def digitsThenBoundary : List Char → Bool
  | [] => false
  | c :: cs =>
    c.isDigit &&
    (match cs.dropWhile Char.isDigit with
     | [] => true
     | d :: _ => !isWordChar d)

/-- Match `room\s+\d+` at the current position. -/
def roomWordNumberAt : List Char → Bool
  | 'r' :: 'o' :: 'o' :: 'm' :: rest =>
    (match rest with
     | c :: _ => c.isWhitespace && digitsThenBoundary (rest.dropWhile Char.isWhitespace)
     | [] => false)
  | _ => false

/-- Match `r\d+` at the current position. -/
def rNumberAt : List Char → Bool
  | 'r' :: rest => digitsThenBoundary rest
  | _ => false

/-- Scan for `\b(room\s+\d+|r\d+)\b`, tracking the previous character for
the leading word boundary. -/
def roomScan : Option Char → List Char → Bool
  | _, [] => false
  | prev, c :: cs =>
    ((match prev with
      | none => true
      | some p => !isWordChar p) &&
     (roomWordNumberAt (c :: cs) || rNumberAt (c :: cs))) ||
    roomScan (some c) cs

/-- `re.search(r"\b(room\s+\d+|r\d+)\b", msg_lower)` as a Boolean. -/
def roomPatternFound (s : String) : Bool := roomScan none s.toList

/-- The structured record parsed from the classification model's JSON
(`data.get(...)` reads; a missing or null key is `none`). -/
structure RouterData where
  intent : Option String := none
  target_table : Option String := none
  clarification_question : Option String := none

/-- The partial state update returned by `router_node`. -/
structure RouterOutcome where
  next_step : String
  active_flow : Option String := none
  target_table : Option String := none
  clarification_question : Option String := none
deriving DecidableEq, Repr

/-- The pre-classification early returns of `router_node`: active-flow
bypasses, the pagination heuristic, and the explicit room-reference
pattern — all evaluated before (and without) the model call. -/
def routerBypass (s : AgentState) : Option RouterOutcome :=
  if s.active_flow = some "LEAD_COLLECTION" then
    some { next_step := "LOAD_USER_DATA" }
  else if s.active_flow = some "COLLECT_LEAD" then
    some { next_step := "PROPERTY_SEARCH" }
  else
    let msgLower := lastMsgLower s
    let lastBot :=
      if 1 < s.messages.length then pyLower (s.messages.dropLast.getLast?.getD "")
      else ""
    let isClarif := strContains lastBot "?" && decide (lastBot.length < 200)
    let hasBudgetUpd := anyKeyword budgetUpdateKeywords msgLower
    let hasLocUpd := anyKeyword locationUpdateKeywords msgLower
    if strTruthy s.target_table && anyKeyword paginationKeywords msgLower &&
        !isClarif && !hasBudgetUpd && !hasLocUpd then
      some { next_step := "PROPERTY_SEARCH" }
    else if roomPatternFound msgLower then
      some { next_step := "INTELLIGENT_CHAT" }
    else none

/-- The intent-dispatch of `router_node` on a successfully parsed
classification (the body of the `try` block after the model call). -/
def handleIntent (s : AgentState) (d : RouterData) : RouterOutcome :=
  let msgLower := lastMsgLower s
  let intent := d.intent.getD "INTELLIGENT_CHAT"
  if intent = "PROPERTY_SEARCH" then
    if !strTruthy d.target_table && strTruthy s.target_table then
      if !strTruthy s.user_email then
        { next_step := "LOAD_USER_DATA", active_flow := some "LEAD_COLLECTION" }
      else { next_step := "PROPERTY_SEARCH" }
    else if strTruthy d.target_table && strTruthy s.target_table &&
        d.target_table ≠ s.target_table then
      if !anyKeyword explicitSwitchKeywords msgLower then
        if !strTruthy s.user_email then
          { next_step := "LOAD_USER_DATA", active_flow := some "LEAD_COLLECTION",
            target_table := d.target_table }
        else { next_step := "PROPERTY_SEARCH" }
      else { next_step := "RESET_MEMORY", target_table := d.target_table }
    else
      let resolved := if strTruthy d.target_table then d.target_table else s.target_table
      if !strTruthy s.user_email then
        { next_step := "LOAD_USER_DATA", active_flow := some "LEAD_COLLECTION",
          target_table := resolved }
      else { next_step := "CHECK_CAPABILITY", target_table := resolved }
  else if intent = "SWITCH_SEARCH" then
    { next_step := "RESET_MEMORY", target_table := d.target_table }
  else if intent = "CLARIFICATION" then
    { next_step := "ASK_CLARIFICATION",
      clarification_question := d.clarification_question }
  else { next_step := "INTELLIGENT_CHAT" }

/--
`router_node` of `router.py`. `messages[-1]` raises `IndexError` on an
empty history (outside the `try` block), modelled as `Except.error`. The
model call and everything after it sit inside `try/except`; the
classification outcome is the `llm` parameter, and any failure of the
call (`Except.error`) is caught and mapped to `INTELLIGENT_CHAT`.
-/
def router_node (s : AgentState) (llm : Except Unit RouterData) :
    Except Unit RouterOutcome :=
  if s.messages.isEmpty then Except.error ()
  else
    Except.ok
      (match routerBypass s with
       | some r => r
       | none =>
         match llm with
         | Except.error _ => { next_step := "INTELLIGENT_CHAT" }
         | Except.ok d => handleIntent s d)

/-! ## Helper lemmas about the extractor pipeline -/

/-- The residential strip never touches the budget bounds. -/
theorem residentialStrip_budget (u : FilterUpdate) :
    (residentialStrip u).budget_max = u.budget_max ∧
    (residentialStrip u).budget_min = u.budget_min :=
  ⟨rfl, rfl⟩

/-- The validation steps of the extractor never touch the budget bounds. -/
theorem extractorApply_budget (isRes : Bool) (today : SDate) (cur : Filters)
    (u : FilterUpdate) :
    (extractorApply isRes today cur u).1.budget_max = (mergedOf isRes cur u).budget_max ∧
    (extractorApply isRes today cur u).1.budget_min = (mergedOf isRes cur u).budget_min := by
  unfold extractorApply
  constructor <;>
  · simp only
    repeat' split
    all_goals rfl

/-- In either domain mode, the merged budget bounds are the pydantic
copy-update of the current bounds with the update's bounds. -/
theorem mergedOf_budget (isRes : Bool) (cur : Filters) (u : FilterUpdate) :
    (mergedOf isRes cur u).budget_max = mergeField u.budget_max cur.budget_max ∧
    (mergedOf isRes cur u).budget_min = mergeField u.budget_min cur.budget_min := by
  cases isRes <;> exact ⟨rfl, rfl⟩

/--
Claim C1 (amended): a field that is absent (unset) from the extracted
update passes through the merge unchanged, in both domain modes — except
that in residential mode the nine coliving-only fields are unconditionally
set to null by the cross-domain strip; moreover a field explicitly set to
null in the update overwrites the current value with null (shown here for
`budget_min`), which is the clearing mechanism the prompts rely on.
-/
theorem c1_unset_fields_pass_through : ∀ (cur : Filters) (u : FilterUpdate),
    (u.location_query = none → (mergedOf false cur u).location_query = cur.location_query) ∧
    (u.budget_max = none → (mergedOf false cur u).budget_max = cur.budget_max) ∧
    (u.budget_min = none → (mergedOf false cur u).budget_min = cur.budget_min) ∧
    (u.move_in_date = none → (mergedOf false cur u).move_in_date = cur.move_in_date) ∧
    (u.tenant_name = none → (mergedOf false cur u).tenant_name = cur.tenant_name) ∧
    (u.tenant_gender = none → (mergedOf false cur u).tenant_gender = cur.tenant_gender) ∧
    (u.tenant_nationality = none → (mergedOf false cur u).tenant_nationality = cur.tenant_nationality) ∧
    (u.tenant_phone = none → (mergedOf false cur u).tenant_phone = cur.tenant_phone) ∧
    (u.tenant_profession = none → (mergedOf false cur u).tenant_profession = cur.tenant_profession) ∧
    (u.tenant_age_group = none → (mergedOf false cur u).tenant_age_group = cur.tenant_age_group) ∧
    (u.tenant_pass_type = none → (mergedOf false cur u).tenant_pass_type = cur.tenant_pass_type) ∧
    (u.tenant_lease_months = none → (mergedOf false cur u).tenant_lease_months = cur.tenant_lease_months) ∧
    (u.room_type = none → (mergedOf false cur u).room_type = cur.room_type) ∧
    (u.needs_ensuite = none → (mergedOf false cur u).needs_ensuite = cur.needs_ensuite) ∧
    (u.environment = none → (mergedOf false cur u).environment = cur.environment) ∧
    (u.bedrooms = none → (mergedOf false cur u).bedrooms = cur.bedrooms) ∧
    (u.bathrooms = none → (mergedOf false cur u).bathrooms = cur.bathrooms) ∧
    (u.property_type = none → (mergedOf false cur u).property_type = cur.property_type) ∧
    (u.furnishing_status = none → (mergedOf false cur u).furnishing_status = cur.furnishing_status) ∧
    (u.min_lease_months = none → (mergedOf false cur u).min_lease_months = cur.min_lease_months) ∧
    (u.needs_cooking = none → (mergedOf false cur u).needs_cooking = cur.needs_cooking) ∧
    (u.has_pets = none → (mergedOf false cur u).has_pets = cur.has_pets) ∧
    (u.needs_gym = none → (mergedOf false cur u).needs_gym = cur.needs_gym) ∧
    (u.needs_pool = none → (mergedOf false cur u).needs_pool = cur.needs_pool) ∧
    (u.needs_visitor_allowance = none → (mergedOf false cur u).needs_visitor_allowance = cur.needs_visitor_allowance) ∧
    (u.needs_wifi = none → (mergedOf false cur u).needs_wifi = cur.needs_wifi) ∧
    (u.needs_aircon = none → (mergedOf false cur u).needs_aircon = cur.needs_aircon) ∧
    (u.needs_washer_dryer = none → (mergedOf false cur u).needs_washer_dryer = cur.needs_washer_dryer) ∧
    (u.location_query = none → (mergedOf true cur u).location_query = cur.location_query) ∧
    (u.budget_max = none → (mergedOf true cur u).budget_max = cur.budget_max) ∧
    (u.budget_min = none → (mergedOf true cur u).budget_min = cur.budget_min) ∧
    (u.move_in_date = none → (mergedOf true cur u).move_in_date = cur.move_in_date) ∧
    (u.tenant_name = none → (mergedOf true cur u).tenant_name = cur.tenant_name) ∧
    (u.tenant_nationality = none → (mergedOf true cur u).tenant_nationality = cur.tenant_nationality) ∧
    (u.tenant_phone = none → (mergedOf true cur u).tenant_phone = cur.tenant_phone) ∧
    (u.tenant_pass_type = none → (mergedOf true cur u).tenant_pass_type = cur.tenant_pass_type) ∧
    (u.tenant_lease_months = none → (mergedOf true cur u).tenant_lease_months = cur.tenant_lease_months) ∧
    (u.bedrooms = none → (mergedOf true cur u).bedrooms = cur.bedrooms) ∧
    (u.bathrooms = none → (mergedOf true cur u).bathrooms = cur.bathrooms) ∧
    (u.property_type = none → (mergedOf true cur u).property_type = cur.property_type) ∧
    (u.furnishing_status = none → (mergedOf true cur u).furnishing_status = cur.furnishing_status) ∧
    (u.min_lease_months = none → (mergedOf true cur u).min_lease_months = cur.min_lease_months) ∧
    (u.has_pets = none → (mergedOf true cur u).has_pets = cur.has_pets) ∧
    (u.needs_gym = none → (mergedOf true cur u).needs_gym = cur.needs_gym) ∧
    (u.needs_pool = none → (mergedOf true cur u).needs_pool = cur.needs_pool) ∧
    (u.needs_aircon = none → (mergedOf true cur u).needs_aircon = cur.needs_aircon) ∧
    (u.needs_washer_dryer = none → (mergedOf true cur u).needs_washer_dryer = cur.needs_washer_dryer) ∧
    ((mergedOf true cur u).tenant_gender = none) ∧
    ((mergedOf true cur u).environment = none) ∧
    ((mergedOf true cur u).room_type = none) ∧
    ((mergedOf true cur u).needs_ensuite = none) ∧
    ((mergedOf true cur u).needs_cooking = none) ∧
    ((mergedOf true cur u).needs_visitor_allowance = none) ∧
    ((mergedOf true cur u).needs_wifi = none) ∧
    ((mergedOf true cur u).tenant_profession = none) ∧
    ((mergedOf true cur u).tenant_age_group = none) ∧
    (u.budget_min = some none → (mergedOf false cur u).budget_min = none) := by
  intro cur u
  repeat' apply And.intro
  all_goals
    first
      | (intro h
         simp [mergedOf, mergeFilters, mergeField, residentialStrip, h])
      | simp [mergedOf, mergeFilters, mergeField, residentialStrip]

/-- Closed witness for the amended claim C1, at a concrete merge. -/
theorem c1_unset_fields_pass_through_witness :
    (mergedOf false { budget_min := some 2 } {}).location_query =
      ({ budget_min := some 2 } : Filters).location_query :=
  (c1_unset_fields_pass_through { budget_min := some 2 } {}).1 rfl

/--
Claim C1 counterexample: in residential extraction mode, with a current
record whose `tenant_gender` is `"Female"` and an extracted update in
which `tenant_gender` is not present (null/unset), the merged result has
`tenant_gender = none` — the field is nulled rather than passed through,
refuting the claim for the residential domain mode.
-/
theorem c1_residential_nulls_unset_field :
    ({ tenant_gender := some "Female" } : Filters).tenant_gender = some "Female" ∧
    (({} : FilterUpdate).tenant_gender = none) ∧
    (mergedOf true { tenant_gender := some "Female" } {}).tenant_gender = none :=
  ⟨rfl, rfl, rfl⟩

/--
Claim C2 counterexample: current filters have `budget_min = 2000`; the
extracted update sets `budget_max = 1000` (below the existing minimum) and
does not itself clear `budget_min`. The merged result of the extractor
pipeline keeps `budget_min = 2000` together with `budget_max = 1000`: the
deterministic merge does not clear the opposite bound, so the invariant
`budget_min ≤ budget_max` is violated.
-/
theorem c2_merge_does_not_clear_opposite_bound :
    ((1000 : Int) < 2000) ∧
    (extractorApply false ⟨2026, 10, 12⟩ { budget_min := some 2000 }
      { budget_max := some (some 1000) }).1.budget_min = some 2000 ∧
    (extractorApply false ⟨2026, 10, 12⟩ { budget_min := some 2000 }
      { budget_max := some (some 1000) }).1.budget_max = some 1000 :=
  ⟨by norm_num, rfl, rfl⟩

/--
Claim C2 (amended): the cross-bound clearing is delegated to the language
model by the extractor prompts; the merge code itself applies exactly the
bounds the update carries and never fails. Whenever the extracted update
sets one bound and explicitly nulls the opposite bound (as the prompt
instructs when the new bound crosses the existing opposite bound), the
merged result carries the new bound and the opposite bound is cleared —
in both domain modes and through the whole validation pipeline.
-/
theorem c2_update_carried_clearing_applies :
    ∀ (isRes : Bool) (today : SDate) (cur : Filters) (u : FilterUpdate) (v : Int),
    (u.budget_max = some (some v) → u.budget_min = some none →
      (extractorApply isRes today cur u).1.budget_max = some v ∧
      (extractorApply isRes today cur u).1.budget_min = none) ∧
    (u.budget_min = some (some v) → u.budget_max = some none →
      (extractorApply isRes today cur u).1.budget_min = some v ∧
      (extractorApply isRes today cur u).1.budget_max = none) := by
  intro isRes today cur u v
  have hb := extractorApply_budget isRes today cur u
  have hm := mergedOf_budget isRes cur u
  constructor
  · intro h1 h2
    rw [hb.1, hb.2, hm.1, hm.2, h1, h2]
    exact ⟨rfl, rfl⟩
  · intro h1 h2
    rw [hb.1, hb.2, hm.1, hm.2, h1, h2]
    exact ⟨rfl, rfl⟩

/-- Closed witness for the amended claim C2 at a concrete input. -/
theorem c2_update_carried_clearing_applies_witness :
    (extractorApply false ⟨2026, 10, 12⟩ { budget_min := some 2000 }
      { budget_max := some (some 1000), budget_min := some none }).1.budget_max = some 1000 ∧
    (extractorApply false ⟨2026, 10, 12⟩ { budget_min := some 2000 }
      { budget_max := some (some 1000), budget_min := some none }).1.budget_min = none :=
  (c2_update_carried_clearing_applies false ⟨2026, 10, 12⟩ { budget_min := some 2000 }
    { budget_max := some (some 1000), budget_min := some none } 1000).1 rfl rfl

/--
Claim C3 counterexample: with today = 2026-10-12, the merged filters carry
the move-in date `"01-01-2020"` — a date earlier than today, but written
day-first rather than in ISO `%Y-%m-%d` order (the same calendar day in
ISO order parses to 2020-01-01, which is before today). The extractor
keeps the field unchanged and attaches no validation message: rejection
does **not** happen regardless of format validity.
-/
theorem c3_non_iso_past_date_not_rejected :
    parseISODate "2020-01-01" = some ⟨2020, 1, 1⟩ ∧
    dateLt ⟨2020, 1, 1⟩ ⟨2026, 10, 12⟩ = true ∧
    parseISODate "01-01-2020" = none ∧
    (extractorApply false ⟨2026, 10, 12⟩ {}
      { move_in_date := some (some "01-01-2020") }).1.move_in_date = some "01-01-2020" ∧
    (extractorApply false ⟨2026, 10, 12⟩ {}
      { move_in_date := some (some "01-01-2020") }).2 = none :=
  ⟨rfl, rfl, rfl, rfl, rfl⟩

/--
Claim C3 (amended): whenever the merged filters carry a move-in date that
`strptime` parses in `%Y-%m-%d` format to a date earlier than today, the
extractor nulls `move_in_date` and attaches a validation message (in both
domain modes); a string the ISO parser rejects is left unchanged without
a message.
-/
theorem c3_past_iso_date_rejected :
    ∀ (isRes : Bool) (today : SDate) (cur : Filters) (u : FilterUpdate)
      (s : String) (d : SDate),
    (mergedOf isRes cur u).move_in_date = some s →
    parseISODate s = some d →
    dateLt d today = true →
    (extractorApply isRes today cur u).1.move_in_date = none ∧
    (extractorApply isRes today cur u).2.isSome = true := by
  intro isRes today cur u s d hs hp hlt
  unfold extractorApply
  simp only [hs, hp, hlt, if_true]
  split
  · exact ⟨rfl, rfl⟩
  · exact ⟨rfl, rfl⟩

/-- Closed witness for the amended claim C3 at a concrete input. -/
theorem c3_past_iso_date_rejected_witness :
    (extractorApply false ⟨2026, 10, 12⟩ {}
      { move_in_date := some (some "2020-01-01") }).1.move_in_date = none ∧
    (extractorApply false ⟨2026, 10, 12⟩ {}
      { move_in_date := some (some "2020-01-01") }).2.isSome = true :=
  c3_past_iso_date_rejected false ⟨2026, 10, 12⟩ {}
    { move_in_date := some (some "2020-01-01") } "2020-01-01" ⟨2020, 1, 1⟩
    rfl rfl rfl


/--
Claim C4: the Decision Engine evaluates its checks in a fixed priority
order. With no pending inventory check and no results to paginate: a
state with no usable location yields `ask_location` even if budget is
also missing; location and budget present but no tenant gender in
shared-housing (non-residential) mode yields `ask_gender`; all three
present yields `execute_search`, and residential mode skips the gender
check.
-/
theorem c4_decision_priority (s : AgentState)
    (hinv : s.inventory_check_status ≠ some "PENDING")
    (hprops : s.found_properties.getD [] = []) :
    (hasLocation s.filters = false → decision_node s = "ask_location") ∧
    (hasLocation s.filters = true → budgetTruthy s.filters = false →
      decision_node s = "ask_budget") ∧
    (hasLocation s.filters = true → budgetTruthy s.filters = true →
      isResidentialTable s.target_table = false → genderTruthy s.filters = false →
      decision_node s = "ask_gender") ∧
    (hasLocation s.filters = true → budgetTruthy s.filters = true →
      (isResidentialTable s.target_table = true ∨ genderTruthy s.filters = true) →
      decision_node s = "execute_search") := by
  have hd : decision_node s =
      (if !hasLocation s.filters then "ask_location"
       else if !budgetTruthy s.filters then "ask_budget"
       else if !isResidentialTable s.target_table && !genderTruthy s.filters then
         "ask_gender"
       else "execute_search") := by
    unfold decision_node
    rw [if_neg hinv]
    simp [hprops]
  refine ⟨?_, ?_, ?_, ?_⟩
  · intro h1
    rw [hd]
    simp [h1]
  · intro h1 h2
    rw [hd]
    simp [h1, h2]
  · intro h1 h2 h3 h4
    rw [hd]
    simp [h1, h2, h3, h4]
  · intro h1 h2 h3
    rw [hd]
    rcases h3 with h3 | h3 <;> simp [h1, h2, h3]

/-- Closed witness for claim C4 at a concrete state (empty filters, no
pending inventory, no results): the engine asks for the location. -/
theorem c4_decision_priority_witness :
    decision_node {} = "ask_location" :=
  (c4_decision_priority {} (by simp) rfl).1 rfl

/--
Claim C6: the Result Presenter batches in groups of exactly 3. Given 7
found properties and `shown_count = 0`, one call renders exactly 3 items,
sets `shown_count` to 3, and announces that 4 more remain; a subsequent
call on the same 7 results with `shown_count = 6` renders exactly 1 item
and announces that 0 remain.
-/
theorem c6_batches_of_three (props : List Listing) (h : props.length = 7) :
    (display_results_node
      { found_properties := some props, shown_count := some 0 }).rendered.length = 3 ∧
    (display_results_node
      { found_properties := some props, shown_count := some 0 }).shown_count = some 3 ∧
    (display_results_node
      { found_properties := some props, shown_count := some 0 }).remaining = some 4 ∧
    (display_results_node
      { found_properties := some props, shown_count := some 6 }).rendered.length = 1 ∧
    (display_results_node
      { found_properties := some props, shown_count := some 6 }).shown_count = some 7 ∧
    (display_results_node
      { found_properties := some props, shown_count := some 6 }).remaining = some 0 := by
  have h0 : props ≠ [] := by
    intro e
    rw [e] at h
    simp at h
  have h3 : (props.drop 0).take 3 ≠ [] := by
    intro e
    have := congrArg List.length e
    simp [List.length_take, List.length_drop, h] at this
  have h6 : (props.drop 6).take 3 ≠ [] := by
    intro e
    have := congrArg List.length e
    simp [List.length_take, List.length_drop, h] at this
  refine ⟨?_, ?_, ?_, ?_, ?_, ?_⟩ <;>
    simp [display_results_node, List.isEmpty_iff, h0, h3, h6,
      List.length_take, List.length_drop, h]

/-- Closed witness for claim C6 on a concrete list of 7 listings. -/
theorem c6_batches_of_three_witness :
    (display_results_node
      { found_properties := some (List.replicate 7 {}),
        shown_count := some 0 }).rendered.length = 3 :=
  (c6_batches_of_three (List.replicate 7 {}) (by simp)).1

/--
Claim C8: the Intent Router never raises out of its node (its only
unguarded indexing is `messages[-1]`, which requires a non-empty
history), and every failure of the language-model classification call is
caught and mapped to the free-form-answer route: whenever control reaches
the classification (no early bypass fires), a failing model call yields
`INTELLIGENT_CHAT`.
-/
theorem c8_router_error_fallback (s : AgentState) (llm : Except Unit RouterData)
    (h : s.messages ≠ []) :
    (router_node s llm).isOk = true ∧
    (routerBypass s = none →
      router_node s (Except.error ()) = Except.ok { next_step := "INTELLIGENT_CHAT" }) := by
  have hne : s.messages.isEmpty = false := by
    cases hm : s.messages with
    | nil => exact absurd hm h
    | cons a l => rfl
  constructor
  · unfold router_node
    rw [hne]
    cases routerBypass s <;> cases llm <;> rfl
  · intro hb
    unfold router_node
    rw [hne, hb]
    rfl

/-- Closed witness for claim C8: a one-message state whose history does
not fire any bypass, with a failing model call. -/
theorem c8_router_error_fallback_witness :
    (router_node { messages := ["hello"] } (Except.error ())).isOk = true ∧
    router_node { messages := ["hello"] } (Except.error ()) =
      Except.ok { next_step := "INTELLIGENT_CHAT" } :=
  ⟨(c8_router_error_fallback { messages := ["hello"] } (Except.error ())
      (by simp)).1,
   (c8_router_error_fallback { messages := ["hello"] } (Except.error ())
      (by simp)).2 rfl⟩

/--
Claim C10: for every agent row and every `target_table` that is not a key
of the fixed `service_map`, the capability gate approves the search
before the agent's capability record is consulted — the result is the
same approval constant for every possible row, including one with every
flag false.
-/
theorem c10_unknown_table_approved (row : Option AgentRow) (tt : String)
    (h : lookupService tt = none) :
    capability_check_node row tt =
      { next_step := "PROPERTY_SEARCH_APPROVED", alternatives := [] } := by
  unfold capability_check_node
  rw [h]

/-- Closed witness for claim C10: an unknown table is approved even for
an agent whose every capability flag is false. -/
theorem c10_unknown_table_approved_witness :
    capability_check_node (some (fun _ => some false)) "hdb_rooms" =
      { next_step := "PROPERTY_SEARCH_APPROVED", alternatives := [] } :=
  c10_unknown_table_approved (some (fun _ => some false)) "hdb_rooms" rfl




/-! ## Helper lemmas about deduplication and the query -/

/-- The dedup loop only ever drops elements: its output is a sublist. -/
theorem dedupAux_sublist (seen : List String) (l : List Listing) :
    List.Sublist (dedupAux seen l) l := by
  induction l generalizing seen with
  | nil => simp [dedupAux]
  | cons p rest ih =>
    cases ht : truthyId p with
    | none =>
      simp only [dedupAux, ht]
      exact List.Sublist.cons₂ p (ih seen)
    | some i =>
      simp only [dedupAux, ht]
      by_cases hm : i ∈ seen
      · rw [if_pos hm]
        exact List.Sublist.cons p (ih seen)
      · rw [if_neg hm]
        exact List.Sublist.cons₂ p (ih (i :: seen))

/-- An identifier already recorded as seen never appears in the output. -/
theorem idCount_dedupAux_of_mem (i : String) (l : List Listing) :
    ∀ seen, i ∈ seen → idCount i (dedupAux seen l) = 0 := by
  induction l with
  | nil => intro seen _; rfl
  | cons p rest ih =>
    intro seen h
    cases ht : truthyId p with
    | none =>
      simp only [dedupAux, ht, idCount]
      rw [if_neg (fun e => Option.noConfusion e), Nat.zero_add]
      exact ih seen h
    | some j =>
      simp only [dedupAux, ht]
      by_cases hm : j ∈ seen
      · rw [if_pos hm]
        exact ih seen h
      · rw [if_neg hm]
        have hji : ¬(truthyId p = some i) := by
          rw [ht]
          intro e
          exact hm (by rwa [Option.some_inj.mp e])
        simp only [idCount, if_neg hji, Nat.zero_add]
        exact ih (j :: seen) (List.mem_cons_of_mem j h)

/-- Each truthy identifier occurs at most once in the deduplicated list. -/
theorem idCount_dedupAux_le (i : String) (l : List Listing) :
    ∀ seen, idCount i (dedupAux seen l) ≤ 1 := by
  induction l with
  | nil => intro seen; simp [dedupAux, idCount]
  | cons p rest ih =>
    intro seen
    cases ht : truthyId p with
    | none =>
      simp only [dedupAux, ht, idCount]
      rw [if_neg (fun e => Option.noConfusion e), Nat.zero_add]
      exact ih seen
    | some j =>
      simp only [dedupAux, ht]
      by_cases hm : j ∈ seen
      · rw [if_pos hm]
        exact ih seen
      · rw [if_neg hm]
        by_cases hij : j = i
        · subst hij
          have heq : truthyId p = some j := ht
          simp only [idCount, if_pos heq]
          have h0 := idCount_dedupAux_of_mem j rest (j :: seen) (List.mem_cons_self j seen)
          omega
        · have hne : ¬(truthyId p = some i) := by
            rw [ht]
            intro e
            exact hij (Option.some_inj.mp e)
          simp only [idCount, if_neg hne, Nat.zero_add]
          exact ih (j :: seen)

/-- Records without a truthy identifier pass through deduplication
untouched. -/
theorem dedupAux_filter_noId (l : List Listing) :
    ∀ seen, (dedupAux seen l).filter (fun p => (truthyId p).isNone) =
      l.filter (fun p => (truthyId p).isNone) := by
  induction l with
  | nil => intro _; rfl
  | cons p rest ih =>
    intro seen
    cases ht : truthyId p with
    | none =>
      simp only [dedupAux, ht]
      simp [List.filter_cons, ht, ih seen]
    | some j =>
      simp only [dedupAux, ht]
      by_cases hm : j ∈ seen
      · rw [if_pos hm]
        simp [List.filter_cons, ht, ih seen]
      · rw [if_neg hm]
        simp [List.filter_cons, ht, ih (j :: seen)]

/-- Deduplication keeps the first occurrence of each identifier that is
not yet seen: `find?` by identifier agrees on input and output. -/
theorem dedupAux_find?_id (i : String) (l : List Listing) :
    ∀ seen, i ∉ seen →
      (dedupAux seen l).find? (fun p => decide (truthyId p = some i)) =
      l.find? (fun p => decide (truthyId p = some i)) := by
  induction l with
  | nil => intro _ _; rfl
  | cons p rest ih =>
    intro seen hni
    cases ht : truthyId p with
    | none =>
      have hd : decide (truthyId p = some i) = false :=
        decide_eq_false (by simp [ht])
      simp only [dedupAux, ht, List.find?_cons]
      rw [ht] at hd
      simp only [hd]
      exact ih seen hni
    | some j =>
      simp only [dedupAux, ht]
      by_cases hm : j ∈ seen
      · have hji : ¬(truthyId p = some i) := by
          rw [ht]
          intro e
          exact hni (Option.some_inj.mp e ▸ hm)
        have hd : decide (truthyId p = some i) = false := decide_eq_false hji
        rw [if_pos hm]
        rw [ih seen hni]
        simp only [List.find?_cons, hd]
      · rw [if_neg hm]
        by_cases hij : j = i
        · subst hij
          have hd : decide (truthyId p = some j) = true := decide_eq_true ht
          simp only [List.find?_cons, hd]
        · have hne : ¬(truthyId p = some i) := by
            rw [ht]
            intro e
            exact hij (Option.some_inj.mp e)
          have hd : decide (truthyId p = some i) = false := decide_eq_false hne
          simp only [List.find?_cons, hd]
          refine ih (j :: seen) ?_
          intro hcon
          rcases List.mem_cons.mp hcon with he | he
          · exact hij he.symm
          · exact hni he

/-- The non-geo coliving query returns a rent-sorted list. -/
theorem runColivingQuery_sorted (t : List Listing) (f : Filters) (tt : Option String) :
    List.Sorted rentLE (runColivingQuery t f tt) := by
  unfold runColivingQuery
  exact List.Pairwise.sublist (List.take_sublist 10 _)
    (List.sorted_insertionSort rentLE _)

/-- The non-geo coliving query returns at most 10 rows (`LIMIT 10`). -/
theorem runColivingQuery_length (t : List Listing) (f : Filters) (tt : Option String) :
    (runColivingQuery t f tt).length ≤ 10 := by
  unfold runColivingQuery
  exact List.length_take_le 10 _


/--
Claim C7: deduplication by listing identifier preserves order (the output
is a sublist of the input, and `find?` by identifier — the first
occurrence — agrees between input and output), contains each truthy
identifier at most once, and keeps every record without an identifier.
-/
theorem c7_dedup_by_identifier (l : List Listing) :
    List.Sublist (dedupProps l) l ∧
    (∀ i : String, idCount i (dedupProps l) ≤ 1) ∧
    (dedupProps l).filter (fun p => (truthyId p).isNone) =
      l.filter (fun p => (truthyId p).isNone) ∧
    (∀ i : String,
      (dedupProps l).find? (fun p => decide (truthyId p = some i)) =
      l.find? (fun p => decide (truthyId p = some i))) :=
  ⟨dedupAux_sublist [] l,
   fun i => idCount_dedupAux_le i l [],
   dedupAux_filter_noId l [],
   fun i => dedupAux_find?_id i l [] (by simp)⟩

/--
Claim C9: the invariant `shown_count ≤ len(found_properties)` is
preserved by every write of either field — a new search resets the cursor
to 0, the presenter advances it only to `start + len(batch)` which never
exceeds the (unchanged) result count, and the domain-switch reset clears
the results and sets the cursor to 0.
-/
theorem c9_shown_count_invariant :
    (∀ (env : SearchEnv) (f : Option Filters),
      (search_node env f).shown_count = 0) ∧
    (∀ (s : AgentState) (n : Nat),
      (display_results_node s).shown_count = some n →
      n ≤ (s.found_properties.getD []).length) ∧
    (∀ (s : AgentState),
      (clear_memory_node s).shown_count = 0 ∧
      (clear_memory_node s).found_properties = none) := by
  refine ⟨fun env f => rfl, ?_, fun s => ⟨rfl, rfl⟩⟩
  intro s n h
  unfold display_results_node at h
  by_cases h1 : (s.found_properties.getD []).isEmpty
  · rw [if_pos h1] at h
    exact absurd h (by simp)
  · rw [if_neg h1] at h
    by_cases h2 :
        (((s.found_properties.getD []).drop (s.shown_count.getD 0)).take 3).isEmpty
    · rw [if_pos h2] at h
      exact absurd h (by simp)
    · rw [if_neg h2] at h
      simp only [Option.some.injEq] at h
      have hlen :
          (((s.found_properties.getD []).drop (s.shown_count.getD 0)).take 3).length =
            min 3 ((s.found_properties.getD []).length - s.shown_count.getD 0) := by
        simp [List.length_take, List.length_drop]
      have hne :
          (((s.found_properties.getD []).drop (s.shown_count.getD 0)).take 3).length ≠ 0 := by
        intro e
        exact h2 (by rwa [List.isEmpty_iff, ← List.length_eq_zero])
      omega

/-- Closed witness for claim C9 at a concrete presenter call: one result,
cursor 0, the presenter writes cursor 1 ≤ 1. -/
theorem c9_shown_count_invariant_witness :
    1 ≤ ((({ found_properties := some [({} : Listing)], shown_count := some 0 } :
      AgentState)).found_properties.getD []).length :=
  c9_shown_count_invariant.2.1
    { found_properties := some [({} : Listing)], shown_count := some 0 } 1 rfl

/--
Claim C5: in the Search Orchestrator, a search whose location is empty or
matches a flexible sentinel returns a result set sorted ascending by
price (`monthly_rent`) and capped at 10 items; and a search with a
specific location whose text-search stage yields at least one match never
invokes the geocoding collaborator.
-/
theorem c5_search_orchestrator (env : SearchEnv) (filters : Option Filters) :
    ((isFlexibleLocation (locationOf filters) || !strTruthy (locationOf filters)) = true →
      List.Sorted rentLE (search_node env filters).found_properties ∧
      (search_node env filters).found_properties.length ≤ 10) ∧
    (strTruthy (locationOf filters) = true →
      isFlexibleLocation (locationOf filters) = false →
      (cleanLoc ((locationOf filters).getD "")).length > 2 →
      runColivingQuery env.table (filters.getD {})
        (some (cleanLoc ((locationOf filters).getD ""))) ≠ [] →
      (search_node env filters).geocode_invoked = false) := by
  constructor
  · intro hflex
    have hout : (search_node env filters).found_properties =
        dedupProps (runColivingQuery env.table (filters.getD {}) none) := by
      unfold search_node
      cases hf : isFlexibleLocation (locationOf filters) <;>
        cases hs : strTruthy (locationOf filters) <;>
        simp_all
    rw [hout]
    constructor
    · exact List.Pairwise.sublist (dedupAux_sublist [] _)
        (runColivingQuery_sorted env.table (filters.getD {}) none)
    · exact le_trans (List.Sublist.length_le (dedupAux_sublist [] _))
        (runColivingQuery_length env.table (filters.getD {}) none)
  · intro h1 h2 h3 h4
    have h5 : (runColivingQuery env.table (filters.getD {})
        (some (cleanLoc ((locationOf filters).getD "")))).isEmpty = false := by
      cases hq : runColivingQuery env.table (filters.getD {})
          (some (cleanLoc ((locationOf filters).getD ""))) with
      | nil => exact absurd hq h4
      | cons a l => rfl
    unfold search_node
    simp [h1, h2, h3, h5]

/-- Closed witness for claim C5: a concrete specific-location search
("bedok") whose text stage matches one active listing; geocoding is not
invoked. -/
theorem c5_search_orchestrator_witness :
    (search_node
      { table := [{ listing_status := some "active",
                    current_listing := some "Available to rent",
                    monthly_rent := 900,
                    property_name := some "Bedok Residences" }],
        geocodeResult := none,
        radiusRows := [] }
      (some { location_query := some "bedok" })).geocode_invoked = false :=
  (c5_search_orchestrator
      { table := [{ listing_status := some "active",
                    current_listing := some "Available to rent",
                    monthly_rent := 900,
                    property_name := some "Bedok Residences" }],
        geocodeResult := none,
        radiusRows := [] }
      (some { location_query := some "bedok" })).2
    rfl rfl (by decide) (by decide)

end PropBot
